import Mathlib

/-!
Verification development for the instructor router of a course-enrollment
service (`enrollment_service/instructor_router.py`).

The router exposes three read endpoints (current enrollment, waitlist,
droplist), backed by a wide-column store ("Dynamo") and an ordered-set store
("Redis"), plus one mutating endpoint, the administrative drop, backed by a
relational sqlite database.  Each handler is shallowly embedded below as a
pure Lean function over explicit store states; the query calls a handler
makes are reflected in an event list so that "no datastore query was
performed" is a statement about the output.
-/

namespace InstructorRouter

/-! ### Slug parsing

Embedding of Python `class_term_slug.split("_")` for the separator `"_"`:
the string is cut at every underscore, so the result always has
(number of underscores + 1) parts, and splitting the empty string yields
one empty part. -/

def splitUnderscore : List Char → List (List Char)
  | [] => [[]]
  | c :: cs =>
    match splitUnderscore cs with
    | [] => [[]]
    | p :: ps => if c = '_' then [] :: p :: ps else (c :: p) :: ps

theorem splitUnderscore_ne_nil (s : List Char) : splitUnderscore s ≠ [] := by
  cases s with
  | nil => simp [splitUnderscore]
  | cons c cs =>
    simp only [splitUnderscore]
    cases h : splitUnderscore cs with
    | nil => simp
    | cons p ps => by_cases hc : c = '_' <;> simp [hc]

/-- The number of parts produced by `split("_")` is the number of
underscores plus one, exactly as in Python. -/
theorem splitUnderscore_length (s : List Char) :
    (splitUnderscore s).length = s.count '_' + 1 := by
  induction s with
  | nil => simp [splitUnderscore]
  | cons c cs ih =>
    simp only [splitUnderscore]
    cases h : splitUnderscore cs with
    | nil => exact absurd h (splitUnderscore_ne_nil cs)
    | cons p ps =>
      rw [h] at ih
      by_cases hc : c = '_'
      · subst hc
        simp_all [List.count_cons]
      · simp_all [List.count_cons, hc]

/-! ### Read-endpoint data model (wide-column store and ordered-set store) -/

/-- The authenticated caller, as produced by the shared dependency
`get_current_user`; only the campus-wide id is consulted by the router. -/
structure Personnel where
  cwid : Int
  deriving DecidableEq

/-- A row of the `class` table in the wide-column store: composite key
`(term, class)` plus the owning instructor. -/
structure ClassRow where
  term : List Char
  cls : List Char
  instructor_id : Int
  deriving DecidableEq

/-- A row of the `enrollment` table (as seen through the
`class_enrollment` index with the `student_cwid` projection). -/
structure EnrollmentRow where
  term : List Char
  cls : List Char
  student_cwid : Int
  deriving DecidableEq

/-- A row of the `droplist` table (as seen through the
`class_dropped_students` index). -/
structure DroplistRow where
  term : List Char
  cls : List Char
  student_cwid : Int
  deriving DecidableEq

/-- The wide-column store consulted by the three read endpoints. -/
structure DynamoState where
  classes : List ClassRow
  enrollment : List EnrollmentRow
  droplist : List DroplistRow
  deriving DecidableEq

/-- The ordered-set store: each key maps to its members in rank order
(lowest rank first). -/
structure RedisState where
  sets : List (List Char × List (List Char))
  deriving DecidableEq

/-- Members of the sorted set stored at `key`, in rank order. -/
def redisMembers (r : RedisState) (key : List Char) : List (List Char) :=
  match r.sets.find? (fun kv => kv.1 = key) with
  | none => []
  | some kv => kv.2

/-- Embedding of `db_redis.zrange(key, start, stop)` (stop inclusive,
non-negative indices as used by the router). -/
def zrange (r : RedisState) (key : List Char) (start stop : Nat) :
    List (List Char) :=
  ((redisMembers r key).drop start).take (stop - start + 1)

/-- One datastore query issued by a read handler, in issue order. -/
inductive QueryEvent
  | classInfo (term cls : List Char) (cwid : Int)
  | classEnrollment (term cls : List Char)
  | classDropped (term cls : List Char)
  | zrangeQuery (key : List Char)
  deriving DecidableEq

/-- Outcome of a read endpoint: 400 for a malformed slug, 404 for a class
not found (or not owned by the caller), 200 with the shaped rows. -/
inductive ReadResult (α : Type)
  | badRequest
  | notFound
  | ok (data : List α)
  deriving DecidableEq

/-- Embedding of the `class` query shared by the three read handlers:
key condition `term = t AND class = c` with filter
`instructor_id = user.cwid`. -/
def query_class_information (db : DynamoState) (term cls : List Char)
    (cwid : Int) : List ClassRow :=
  db.classes.filter
    (fun r => r.term = term && r.cls = cls && r.instructor_id = cwid)

/-- Embedding of `GET /classes/{class_term_slug}/students`
(`get_current_enrollment`): parse the slug, reject unless it has exactly
two parts, query the class filtered by the caller, 404 when empty,
otherwise return the enrolled students' cwids. -/
def get_current_enrollment (class_term_slug : List Char) (db : DynamoState)
    (user : Personnel) : ReadResult Int × List QueryEvent :=
  match splitUnderscore class_term_slug with
  | [term, _class] =>
    let class_information := query_class_information db term _class user.cwid
    if class_information = [] then
      (.notFound, [.classInfo term _class user.cwid])
    else
      let class_enrollment :=
        db.enrollment.filter (fun r => r.term = term && r.cls = _class)
      (.ok (class_enrollment.map (fun r => r.student_cwid)),
        [.classInfo term _class user.cwid, .classEnrollment term _class])
  | _ => (.badRequest, [])

/-- Embedding of `GET /classes/{class_term_slug}/waitlist/`
(`get_waitlist`): same parse and ownership gate, then the first 16 ranked
members of the sorted set keyed `{class}-{term}`. -/
def get_waitlist (class_term_slug : List Char) (db : DynamoState)
    (db_redis : RedisState) (user : Personnel) :
    ReadResult (List Char) × List QueryEvent :=
  match splitUnderscore class_term_slug with
  | [term, _class] =>
    let class_information := query_class_information db term _class user.cwid
    if class_information = [] then
      (.notFound, [.classInfo term _class user.cwid])
    else
      let set_name := _class ++ '-' :: term
      let waitlist_information := zrange db_redis set_name 0 15
      (.ok waitlist_information,
        [.classInfo term _class user.cwid, .zrangeQuery set_name])
  | _ => (.badRequest, [])

/-- Embedding of `GET /classes/{class_term_slug}/droplist/`
(`get_droplist`): same parse and ownership gate, then the dropped
students' cwids from the droplist table. -/
def get_droplist (class_term_slug : List Char) (db : DynamoState)
    (user : Personnel) : ReadResult Int × List QueryEvent :=
  match splitUnderscore class_term_slug with
  | [term, _class] =>
    let class_information := query_class_information db term _class user.cwid
    if class_information = [] then
      (.notFound, [.classInfo term _class user.cwid])
    else
      let class_dropped_students :=
        db.droplist.filter (fun r => r.term = term && r.cls = _class)
      (.ok (class_dropped_students.map (fun r => r.student_cwid)),
        [.classInfo term _class user.cwid, .classDropped term _class])
  | _ => (.badRequest, [])

/-! ### Administrative drop: relational store model

`drop_class` runs against a sqlite connection: a conditional `DELETE` on
`enrollment` scoped by class ownership, a 404 when zero rows were
affected, an `INSERT` into `droplist`, `db.commit()`, and a post-commit
auto-enrollment trigger, all inside `try ... except sqlite3.IntegrityError`.

The connection semantics are modelled explicitly: statements act on a
working copy of the database and become visible only at `db.commit()`.
The dependency-injected connection is request-scoped, so work left
uncommitted when the handler raises is discarded (rolled back) when the
request ends; accordingly an outcome carries `txnState`, the committed
state when the handler returns (equal to the input state on every path
that never reaches `db.commit()`). -/

/-- A row of the relational `class` table (surrogate integer key plus the
owning instructor). -/
structure SqlClassRow where
  id : Int
  instructor_id : Int
  deriving DecidableEq

/-- A row of the relational `droplist` table as written by the
administrative drop: target pair, `datetime('now')` timestamp, and the
`administrative` flag (the insert writes the literal 1 = true). -/
structure SqlDroplistRow where
  class_id : Int
  student_id : Int
  drop_date : Nat
  administrative : Bool
  deriving DecidableEq

/-- The relational store (plus the two spec-level collaborators the
post-commit trigger reads: the auto-enroll policy flag and the per-class
ranked waitlists). `enrollment` rows are `(class_id, student_id)` pairs. -/
structure SqlState where
  classes : List SqlClassRow
  enrollment : List (Int × Int)
  droplist : List SqlDroplistRow
  auto_enroll_flag : Bool
  waitlists : List (Int × List Int)
  deriving DecidableEq

/-- A datastore-layer (sqlite3) exception, identified by its type name:
`integrityError` is `sqlite3.IntegrityError`; `otherError ty msg` stands
for any other member of the sqlite3 exception hierarchy (for example
`OperationalError`), carrying that type's name. -/
inductive SqliteExc
  | integrityError (msg : String)
  | otherError (ty msg : String)
  deriving DecidableEq

/-- Python `type(e).__name__` for a modelled sqlite3 exception. -/
def excTypeName : SqliteExc → String
  | .integrityError _ => "IntegrityError"
  | .otherError ty _ => ty

/-- Python `str(e)` for a modelled sqlite3 exception. -/
def excMsg : SqliteExc → String
  | .integrityError msg => msg
  | .otherError _ msg => msg

/-- Whether `except sqlite3.IntegrityError` catches the exception. -/
def isIntegrityError : SqliteExc → Bool
  | .integrityError _ => true
  | .otherError _ _ => false

/-- How the handler terminates: 200 with its success detail, 404 from the
`rowcount == 0` branch, 409 from the `except` clause carrying
`type(e).__name__` and `str(e)`, or an exception that the handler does
not catch and that propagates to the framework. -/
inductive DropResult
  | ok (detail : String)
  | notFound (detail : String)
  | conflict (ty msg : String)
  | uncaught (e : SqliteExc)
  deriving DecidableEq

/-- Post-commit control events emitted by the handler, in order. -/
inductive TrigEvent
  | flagRead (value : Bool)
  | autoEnrollTrigger (class_ids : List Int)
  deriving DecidableEq

/-- Everything observable about one `drop_class` request: the HTTP-level
result, the committed relational state when the handler returned
(`txnState`), the state after the post-commit trigger ran (`finalState`),
and the post-commit events. -/
structure DropOutcome where
  result : DropResult
  txnState : SqlState
  finalState : SqlState
  events : List TrigEvent
  deriving DecidableEq

/-- The `WHERE` predicate of the conditional delete, applied to one
`enrollment` row: `class_id = ? AND student_id = ? AND class_id IN
(SELECT id FROM class WHERE id = ? AND instructor_id = ?)`. -/
def enrollmentRowMatches (class_id student_id instructor_id : Int)
    (classes : List SqlClassRow) (row : Int × Int) : Bool :=
  row.1 = class_id && row.2 = student_id &&
    classes.any (fun c => c.id = class_id && c.instructor_id = instructor_id)

/-- Modelled from the spec: `enrollment_helper.is_auto_enroll_enabled`
is not under `src/`; per §4.2 it reads the auto-enroll configuration
value from the store with no side effects. -/
def is_auto_enroll_enabled (db : SqlState) : Bool :=
  db.auto_enroll_flag

/-- The ranked waitlist stored for a class id (empty when absent). -/
def lookupWaitlist (w : List (Int × List Int)) (cid : Int) : List Int :=
  match w.find? (fun kv => kv.1 = cid) with
  | none => []
  | some kv => kv.2

/-- Replace the ranked waitlist stored for a class id. -/
def setWaitlist (w : List (Int × List Int)) (cid : Int) (l : List Int) :
    List (Int × List Int) :=
  w.map (fun kv => if kv.1 = cid then (kv.1, l) else kv)

/-- Modelled from the spec: one step of
`enrollment_helper.enroll_students_from_waitlist` (not under `src/`);
per §4.2 it pops the lowest-ranked waitlist entry for the class, if any,
and inserts a corresponding enrollment row, no-opping on an empty
waitlist. -/
def promoteFromWaitlist (db : SqlState) (cid : Int) : SqlState :=
  match lookupWaitlist db.waitlists cid with
  | [] => db
  | stu :: rest =>
    { db with
      enrollment := db.enrollment ++ [(cid, stu)],
      waitlists := setWaitlist db.waitlists cid rest }

/-- Modelled from the spec: `enrollment_helper.enroll_students_from_waitlist`
(not under `src/`); per §4.2, at most one promotion per listed class. -/
def enroll_students_from_waitlist (db : SqlState) (class_ids : List Int) :
    SqlState :=
  class_ids.foldl promoteFromWaitlist db

/-- Embedding of `DELETE /enrollment/{class_id}/{student_id}/administratively/`
(`drop_class`).  `now` is the value of `datetime('now')`; `insertFault` is
the environment's behavior at the droplist `INSERT` (`none` when the insert
succeeds, `some e` when the relational store raises `e` there).  The flow
mirrors the handler: conditional delete, 404 on zero affected rows (an
`HTTPException`, not caught by the `except sqlite3.IntegrityError` clause),
droplist insert, commit, then the post-commit flag read and trigger; the
`except` clause turns an `IntegrityError` into a 409 whose payload is the
exception's type name and message, and any other exception propagates. -/
def drop_class (class_id student_id instructor_id : Int) (now : Nat)
    (insertFault : Option SqliteExc) (db : SqlState) : DropOutcome :=
  let matched :=
    db.enrollment.filter
      (enrollmentRowMatches class_id student_id instructor_id db.classes)
  if matched.length = 0 then
    { result := .notFound "Record Not Found",
      txnState := db, finalState := db, events := [] }
  else
    match insertFault with
    | some e =>
      if isIntegrityError e then
        { result := .conflict (excTypeName e) (excMsg e),
          txnState := db, finalState := db, events := [] }
      else
        { result := .uncaught e, txnState := db, finalState := db,
          events := [] }
    | none =>
      let committed : SqlState :=
        { db with
          enrollment :=
            db.enrollment.filter (fun r =>
              !(enrollmentRowMatches class_id student_id instructor_id
                  db.classes r)),
          droplist := db.droplist ++
            [⟨class_id, student_id, now, true⟩] }
      let flag := is_auto_enroll_enabled committed
      if flag then
        { result := .ok "Item deleted successfully",
          txnState := committed,
          finalState := enroll_students_from_waitlist committed [class_id],
          events := [.flagRead flag, .autoEnrollTrigger [class_id]] }
      else
        { result := .ok "Item deleted successfully",
          txnState := committed, finalState := committed,
          events := [.flagRead flag] }

/-! ### Whole-program step relation

One operation of the program is a request to one of the four routes; a
step runs the handler and keeps whatever state it produced (read
handlers never write to any store). -/

/-- One inbound request to the router. -/
inductive Op
  | rosterRead (slug : List Char) (user : Personnel)
  | waitlistRead (slug : List Char) (user : Personnel)
  | droplistRead (slug : List Char) (user : Personnel)
  | adminDrop (class_id student_id instructor_id : Int) (now : Nat)
      (insertFault : Option SqliteExc)

/-- The combined state of the program's three stores. -/
structure ProgState where
  dynamo : DynamoState
  redis : RedisState
  sql : SqlState
  deriving DecidableEq

/-- Effect of one request on the stores: read handlers run their queries
and leave every store unchanged; the administrative drop rewrites the
relational store to the handler's final state. -/
def step (op : Op) (ps : ProgState) : ProgState :=
  match op with
  | .rosterRead slug user =>
    let _ := get_current_enrollment slug ps.dynamo user
    ps
  | .waitlistRead slug user =>
    let _ := get_waitlist slug ps.dynamo ps.redis user
    ps
  | .droplistRead slug user =>
    let _ := get_droplist slug ps.dynamo user
    ps
  | .adminDrop c s i now fault =>
    { ps with sql := (drop_class c s i now fault ps.sql).finalState }

/-! ### Characterization lemmas for the administrative drop -/

/-- On a conditional delete that affects zero rows the handler raises 404
from inside the `try` block, never reaching the insert, the commit, or
the trigger: the whole outcome is the 404 result over the unchanged
state. -/
theorem drop_class_no_match (class_id student_id instructor_id : Int)
    (now : Nat) (insertFault : Option SqliteExc) (db : SqlState)
    (h : (db.enrollment.filter
      (enrollmentRowMatches class_id student_id instructor_id
        db.classes)).length = 0) :
    drop_class class_id student_id instructor_id now insertFault db =
      ⟨.notFound "Record Not Found", db, db, []⟩ := by
  simp [drop_class, h]

/-- The relational state the successful handler commits: the matching
enrollment rows deleted and one administrative droplist row appended. -/
def dropCommitted (class_id student_id instructor_id : Int) (now : Nat)
    (db : SqlState) : SqlState :=
  { db with
    enrollment :=
      db.enrollment.filter (fun r =>
        !(enrollmentRowMatches class_id student_id instructor_id
            db.classes r)),
    droplist := db.droplist ++ [⟨class_id, student_id, now, true⟩] }

/-- When the delete matches and the insert does not fault, the handler
returns 200, commits `dropCommitted`, and runs the post-commit trigger on
the committed state exactly when the flag is set. -/
theorem drop_class_success (class_id student_id instructor_id : Int)
    (now : Nat) (db : SqlState)
    (h : (db.enrollment.filter
      (enrollmentRowMatches class_id student_id instructor_id
        db.classes)).length ≠ 0) :
    drop_class class_id student_id instructor_id now none db =
      if is_auto_enroll_enabled
          (dropCommitted class_id student_id instructor_id now db) then
        ⟨.ok "Item deleted successfully",
          dropCommitted class_id student_id instructor_id now db,
          enroll_students_from_waitlist
            (dropCommitted class_id student_id instructor_id now db)
            [class_id],
          [.flagRead true, .autoEnrollTrigger [class_id]]⟩
      else
        ⟨.ok "Item deleted successfully",
          dropCommitted class_id student_id instructor_id now db,
          dropCommitted class_id student_id instructor_id now db,
          [.flagRead false]⟩ := by
  simp only [drop_class, h, if_false, dropCommitted]
  by_cases hf : is_auto_enroll_enabled
      (dropCommitted class_id student_id instructor_id now db) = true <;>
    simp_all [dropCommitted]

/-- When the delete matches and the insert faults, the handler commits
nothing and translates the fault through the `except` clause: a 409 for
an `IntegrityError`, an uncaught propagation otherwise. -/
theorem drop_class_fault (class_id student_id instructor_id : Int)
    (now : Nat) (e : SqliteExc) (db : SqlState)
    (h : (db.enrollment.filter
      (enrollmentRowMatches class_id student_id instructor_id
        db.classes)).length ≠ 0) :
    drop_class class_id student_id instructor_id now (some e) db =
      if isIntegrityError e then
        ⟨.conflict (excTypeName e) (excMsg e), db, db, []⟩
      else
        ⟨.uncaught e, db, db, []⟩ := by
  by_cases hi : isIntegrityError e = true <;> simp [drop_class, h, hi]

/-- The spec-modelled trigger touches only `enrollment` and `waitlists`:
the droplist, the class table, and the policy flag pass through one
promotion unchanged. -/
theorem promoteFromWaitlist_frame (db : SqlState) (cid : Int) :
    (promoteFromWaitlist db cid).droplist = db.droplist ∧
    (promoteFromWaitlist db cid).classes = db.classes ∧
    (promoteFromWaitlist db cid).auto_enroll_flag = db.auto_enroll_flag := by
  unfold promoteFromWaitlist
  cases lookupWaitlist db.waitlists cid <;> simp

/-- Enrollment rows after one promotion: either unchanged, or extended by
exactly the head of the class's ranked waitlist. -/
theorem promoteFromWaitlist_enrollment (db : SqlState) (cid : Int) :
    (promoteFromWaitlist db cid).enrollment = db.enrollment ∨
    ∃ stu rest, lookupWaitlist db.waitlists cid = stu :: rest ∧
      (promoteFromWaitlist db cid).enrollment =
        db.enrollment ++ [(cid, stu)] := by
  unfold promoteFromWaitlist
  cases h : lookupWaitlist db.waitlists cid with
  | nil => left; rfl
  | cons stu rest => right; exact ⟨stu, rest, rfl, rfl⟩

/-- The trigger invoked on a singleton class list is one promotion. -/
theorem enroll_singleton (db : SqlState) (cid : Int) :
    enroll_students_from_waitlist db [cid] = promoteFromWaitlist db cid :=
  rfl

/-- The delete predicate holds of a row exactly when the row is the
target pair and the class table owns the pair's class for the caller. -/
theorem enrollmentRowMatches_eq (class_id student_id instructor_id : Int)
    (classes : List SqlClassRow) (row : Int × Int)
    (hown : ∃ c ∈ classes,
      c.id = class_id ∧ c.instructor_id = instructor_id) :
    enrollmentRowMatches class_id student_id instructor_id classes row =
      decide (row = (class_id, student_id)) := by
  rcases hown with ⟨c, hc, h1, h2⟩
  have hany : classes.any
      (fun c => c.id = class_id && c.instructor_id = instructor_id) = true := by
    rw [List.any_eq_true]
    exact ⟨c, hc, by simp [h1, h2]⟩
  simp [enrollmentRowMatches, hany, Prod.ext_iff]

/-! ### Claims about the administrative drop -/

/-- C1: in every state holding an active enrollment row
`(class_id, student_id)` whose class is owned by the calling instructor,
the administrative drop deletes exactly that enrollment row, appends
exactly one droplist row for the pair carrying `administrative = true`
and the drop timestamp, commits both effects in the one transaction the
handler closes with `db.commit()` (`txnState`), and returns the 200
success response. -/
theorem admin_drop_success_effects (class_id student_id instructor_id : Int)
    (now : Nat) (db : SqlState)
    (henr : (class_id, student_id) ∈ db.enrollment)
    (hown : ∃ c ∈ db.classes,
      c.id = class_id ∧ c.instructor_id = instructor_id) :
    (drop_class class_id student_id instructor_id now none db).result =
        .ok "Item deleted successfully" ∧
    (drop_class class_id student_id instructor_id now none
        db).txnState.enrollment =
      db.enrollment.filter (fun r => !(decide (r = (class_id, student_id)))) ∧
    (class_id, student_id) ∉
      (drop_class class_id student_id instructor_id now none
        db).txnState.enrollment ∧
    (drop_class class_id student_id instructor_id now none
        db).txnState.droplist =
      db.droplist ++ [⟨class_id, student_id, now, true⟩] := by
  have hmem : (class_id, student_id) ∈ db.enrollment.filter
      (enrollmentRowMatches class_id student_id instructor_id db.classes) := by
    rw [List.mem_filter]
    exact ⟨henr, by rw [enrollmentRowMatches_eq _ _ _ _ _ hown]; simp⟩
  have hne : (db.enrollment.filter
      (enrollmentRowMatches class_id student_id instructor_id
        db.classes)).length ≠ 0 := by
    intro h0
    rw [List.length_eq_zero] at h0
    rw [h0] at hmem
    exact absurd hmem (List.not_mem_nil _)
  rw [drop_class_success _ _ _ _ _ hne]
  have hfiltereq : db.enrollment.filter (fun r =>
        !(enrollmentRowMatches class_id student_id instructor_id
            db.classes r)) =
      db.enrollment.filter (fun r => !(decide (r = (class_id, student_id)))) :=
    List.filter_congr (fun r _ => by
      rw [enrollmentRowMatches_eq _ _ _ _ _ hown])
  by_cases hf : is_auto_enroll_enabled
      (dropCommitted class_id student_id instructor_id now db) = true <;>
    simp_all [dropCommitted, List.mem_filter]

/-- C2: whenever the administrative drop reports a 409 Conflict, the
transaction was never committed, so the committed relational state — the
enrollment and droplist tables included — is exactly the pre-call state,
and the post-commit trigger never ran. -/
theorem admin_drop_conflict_rolls_back (class_id student_id instructor_id :
      Int) (now : Nat) (insertFault : Option SqliteExc) (db : SqlState)
    (ty msg : String)
    (h : (drop_class class_id student_id instructor_id now insertFault
        db).result = .conflict ty msg) :
    (drop_class class_id student_id instructor_id now insertFault
        db).txnState = db ∧
    (drop_class class_id student_id instructor_id now insertFault
        db).finalState = db ∧
    (drop_class class_id student_id instructor_id now insertFault
        db).events = [] := by
  by_cases h0 : (db.enrollment.filter
      (enrollmentRowMatches class_id student_id instructor_id
        db.classes)).length = 0
  · rw [drop_class_no_match _ _ _ _ _ _ h0]
    exact ⟨rfl, rfl, rfl⟩
  · cases insertFault with
    | none =>
      rw [drop_class_success _ _ _ _ _ h0] at h
      by_cases hf : is_auto_enroll_enabled
          (dropCommitted class_id student_id instructor_id now db) =
            true <;>
        simp [hf] at h
    | some e =>
      rw [drop_class_fault _ _ _ _ _ _ h0] at h ⊢
      by_cases hi : isIntegrityError e = true <;> simp_all

/-- C4: whenever the conditional delete affects zero rows — no matching
enrollment, wrong instructor, or nonexistent class — the administrative
drop returns the 404 NotFound error having committed nothing: the
committed state, the state after the handler, and in particular the
enrollment and droplist tables are exactly the pre-call ones, and no
post-commit event happened. -/
theorem admin_drop_zero_rows_not_found (class_id student_id instructor_id :
      Int) (now : Nat) (insertFault : Option SqliteExc) (db : SqlState)
    (h : (db.enrollment.filter
      (enrollmentRowMatches class_id student_id instructor_id
        db.classes)).length = 0) :
    (drop_class class_id student_id instructor_id now insertFault
        db).result = .notFound "Record Not Found" ∧
    (drop_class class_id student_id instructor_id now insertFault
        db).txnState = db ∧
    (drop_class class_id student_id instructor_id now insertFault
        db).finalState = db ∧
    (drop_class class_id student_id instructor_id now insertFault
        db).events = [] := by
  rw [drop_class_no_match _ _ _ _ _ _ h]
  exact ⟨rfl, rfl, rfl, rfl⟩

/-- Whether a handler outcome is the 409 Conflict translation. -/
def isConflict : DropResult → Bool
  | .conflict _ _ => true
  | _ => false

/-- C3 counterexample: a datastore-layer exception that is not an
`IntegrityError` — here an `OperationalError` raised by the droplist
insert on a state where the delete matched — is not translated into a
Conflict; it propagates out of the handler uncaught, so not every
datastore exception is caught and translated. -/
theorem admin_drop_exception_translation_counterexample :
    (drop_class 1 10 1 0
        (some (.otherError "OperationalError" "disk I O error"))
        ⟨[⟨1, 1⟩], [(1, 10)], [], false, []⟩).result =
      .uncaught (.otherError "OperationalError" "disk I O error") ∧
    isConflict (drop_class 1 10 1 0
        (some (.otherError "OperationalError" "disk I O error"))
        ⟨[⟨1, 1⟩], [(1, 10)], [], false, []⟩).result = false := by
  constructor <;> rfl

/-- C3 amended: a datastore-layer exception raised by the droplist insert
is translated into a 409 Conflict carrying the underlying error's type
name and message exactly when it is an `IntegrityError` (the only class
the handler's `except` clause names); any other datastore exception
propagates out of the handler uncaught. -/
theorem admin_drop_exception_translation (class_id student_id
      instructor_id : Int) (now : Nat) (e : SqliteExc) (db : SqlState)
    (h : (db.enrollment.filter
      (enrollmentRowMatches class_id student_id instructor_id
        db.classes)).length ≠ 0) :
    (drop_class class_id student_id instructor_id now (some e) db).result =
      if isIntegrityError e then .conflict (excTypeName e) (excMsg e)
      else .uncaught e := by
  rw [drop_class_fault _ _ _ _ _ _ h]
  by_cases hi : isIntegrityError e = true <;> simp [hi]

/-- C5: on every successful administrative drop the handler, after the
transaction has committed (`txnState`), reads the auto-enroll policy flag
and invokes the auto-enrollment trigger with exactly the singleton list
`[class_id]` if and only if the flag is enabled; the trigger acts on the
already-committed state (so it is outside the drop's transaction), and
with the flag disabled it is never invoked. -/
theorem admin_drop_post_commit_trigger (class_id student_id instructor_id :
      Int) (now : Nat) (insertFault : Option SqliteExc) (db : SqlState)
    (d : String)
    (h : (drop_class class_id student_id instructor_id now insertFault
        db).result = .ok d) :
    (drop_class class_id student_id instructor_id now insertFault
        db).events =
      .flagRead (is_auto_enroll_enabled
        (drop_class class_id student_id instructor_id now insertFault
          db).txnState) ::
        (if is_auto_enroll_enabled
            (drop_class class_id student_id instructor_id now insertFault
              db).txnState then
          [.autoEnrollTrigger [class_id]]
        else []) ∧
    (TrigEvent.autoEnrollTrigger [class_id] ∈
        (drop_class class_id student_id instructor_id now insertFault
          db).events ↔
      is_auto_enroll_enabled
        (drop_class class_id student_id instructor_id now insertFault
          db).txnState = true) ∧
    (drop_class class_id student_id instructor_id now insertFault
        db).finalState =
      (if is_auto_enroll_enabled
          (drop_class class_id student_id instructor_id now insertFault
            db).txnState then
        enroll_students_from_waitlist
          (drop_class class_id student_id instructor_id now insertFault
            db).txnState [class_id]
      else
        (drop_class class_id student_id instructor_id now insertFault
          db).txnState) := by
  by_cases h0 : (db.enrollment.filter
      (enrollmentRowMatches class_id student_id instructor_id
        db.classes)).length = 0
  · rw [drop_class_no_match _ _ _ _ _ _ h0] at h
    exact absurd h (by simp)
  · cases insertFault with
    | some e =>
      rw [drop_class_fault _ _ _ _ _ _ h0] at h
      by_cases hi : isIntegrityError e = true <;> simp [hi] at h
    | none =>
      rw [drop_class_success _ _ _ _ _ h0]
      by_cases hf : is_auto_enroll_enabled
          (dropCommitted class_id student_id instructor_id now db) =
            true <;>
        simp [hf]

/-- After the successful transaction commits, no enrollment row matches
the delete predicate for the same arguments any more: the delete removed
every matching row and the insert only touched the droplist. -/
theorem dropCommitted_no_target (class_id student_id instructor_id : Int)
    (now : Nat) (db : SqlState) :
    (dropCommitted class_id student_id instructor_id now
        db).enrollment.filter
      (enrollmentRowMatches class_id student_id instructor_id
        db.classes) = [] := by
  rw [List.filter_eq_nil_iff]
  intro r hr
  simp only [dropCommitted] at hr
  rw [List.mem_filter] at hr
  simpa using hr.2

/-- The final state of a successful drop, as a conditional on the policy
flag read from the committed state. -/
theorem drop_class_finalState (class_id student_id instructor_id : Int)
    (now : Nat) (db : SqlState)
    (h : (db.enrollment.filter
      (enrollmentRowMatches class_id student_id instructor_id
        db.classes)).length ≠ 0) :
    (drop_class class_id student_id instructor_id now none db).finalState =
      if is_auto_enroll_enabled
          (dropCommitted class_id student_id instructor_id now db) then
        promoteFromWaitlist
          (dropCommitted class_id student_id instructor_id now db) class_id
      else dropCommitted class_id student_id instructor_id now db := by
  rw [drop_class_success _ _ _ _ _ h]
  by_cases hf : is_auto_enroll_enabled
      (dropCommitted class_id student_id instructor_id now db) = true <;>
    simp [hf, enroll_singleton]

/-- Unless the post-commit trigger re-enrolled the dropped pair — which
it can only do when the flag is on and the dropped student heads the
class's own waitlist — the final state of a successful drop holds no row
matching the delete predicate of the same arguments. -/
theorem drop_final_no_target (class_id student_id instructor_id : Int)
    (now : Nat) (db : SqlState)
    (h : (db.enrollment.filter
      (enrollmentRowMatches class_id student_id instructor_id
        db.classes)).length ≠ 0)
    (hsafe : db.auto_enroll_flag = false ∨
      (lookupWaitlist db.waitlists class_id).head? ≠ some student_id) :
    ((drop_class class_id student_id instructor_id now none
        db).finalState.enrollment.filter
      (enrollmentRowMatches class_id student_id instructor_id
        (drop_class class_id student_id instructor_id now none
          db).finalState.classes)).length = 0 := by
  rw [drop_class_finalState _ _ _ _ _ h]
  by_cases hf : is_auto_enroll_enabled
      (dropCommitted class_id student_id instructor_id now db) = true
  · rw [if_pos hf]
    have hcls : (promoteFromWaitlist
        (dropCommitted class_id student_id instructor_id now db)
        class_id).classes = db.classes := by
      rcases promoteFromWaitlist_frame
          (dropCommitted class_id student_id instructor_id now db)
          class_id with ⟨-, hc, -⟩
      rw [hc]; rfl
    rw [hcls]
    rcases promoteFromWaitlist_enrollment
        (dropCommitted class_id student_id instructor_id now db)
        class_id with he | ⟨stu, rest, hl, he⟩
    · rw [he, dropCommitted_no_target]
      rfl
    · have hflag : db.auto_enroll_flag = true := hf
      have hhead : (lookupWaitlist db.waitlists class_id).head? ≠
          some student_id := by
        rcases hsafe with h1 | h1
        · rw [hflag] at h1; exact absurd h1 (by simp)
        · exact h1
      have hlw : lookupWaitlist db.waitlists class_id = stu :: rest := hl
      have hstu : stu ≠ student_id := by
        rw [hlw] at hhead
        simpa using hhead
      have h2 : [((class_id : Int), stu)].filter
          (enrollmentRowMatches class_id student_id instructor_id
            db.classes) = [] := by
        simp [enrollmentRowMatches, hstu]
      rw [he, List.filter_append, dropCommitted_no_target, h2]
      rfl
  · rw [if_neg hf]
    have hcls : (dropCommitted class_id student_id instructor_id now
        db).classes = db.classes := rfl
    rw [hcls, dropCommitted_no_target]
    rfl

/-- C6 counterexample: in the state with class 1 owned by instructor 1,
student 10 enrolled in class 1, auto-enroll enabled, and student 10 also
heading class 1's waitlist, the first administrative drop succeeds but
the post-commit trigger promotes student 10 straight back into the
class, so the second identical invocation succeeds with 200 instead of
failing with the claimed 404. -/
theorem admin_drop_idempotence_counterexample :
    (drop_class 1 10 1 0 none
        ⟨[⟨1, 1⟩], [(1, 10)], [], true, [(1, [10])]⟩).result =
      .ok "Item deleted successfully" ∧
    (drop_class 1 10 1 1 none
        (drop_class 1 10 1 0 none
          ⟨[⟨1, 1⟩], [(1, 10)], [], true, [(1, [10])]⟩).finalState).result =
      .ok "Item deleted successfully" ∧
    (drop_class 1 10 1 1 none
        (drop_class 1 10 1 0 none
          ⟨[⟨1, 1⟩], [(1, 10)], [], true, [(1, [10])]⟩).finalState).result ≠
      .notFound "Record Not Found" := by
  refine ⟨rfl, rfl, ?_⟩
  decide

/-- C6 amended: after a successful administrative drop, a second
invocation with identical arguments on the resulting state fails with
the 404 NotFound error and changes nothing — provided the post-commit
trigger did not re-enroll the dropped pair, that is, whenever auto-enroll
is disabled or the dropped student does not head the class's own
waitlist. -/
theorem admin_drop_idempotent_terminal (class_id student_id instructor_id :
      Int) (t1 t2 : Nat) (fault2 : Option SqliteExc) (db : SqlState)
    (h : (db.enrollment.filter
      (enrollmentRowMatches class_id student_id instructor_id
        db.classes)).length ≠ 0)
    (hsafe : db.auto_enroll_flag = false ∨
      (lookupWaitlist db.waitlists class_id).head? ≠ some student_id) :
    (drop_class class_id student_id instructor_id t2 fault2
        (drop_class class_id student_id instructor_id t1 none
          db).finalState).result = .notFound "Record Not Found" ∧
    (drop_class class_id student_id instructor_id t2 fault2
        (drop_class class_id student_id instructor_id t1 none
          db).finalState).finalState =
      (drop_class class_id student_id instructor_id t1 none
        db).finalState ∧
    (drop_class class_id student_id instructor_id t2 fault2
        (drop_class class_id student_id instructor_id t1 none
          db).finalState).txnState =
      (drop_class class_id student_id instructor_id t1 none
        db).finalState := by
  have hkey := drop_final_no_target class_id student_id instructor_id t1
    db h hsafe
  rw [drop_class_no_match class_id student_id instructor_id t2 fault2 _
    hkey]
  exact ⟨rfl, rfl, rfl⟩

/-- The droplist the successful drop's final state carries: the trigger
never writes to it, so it is the committed append. -/
theorem drop_class_finalState_droplist (class_id student_id instructor_id :
      Int) (now : Nat) (db : SqlState)
    (h : (db.enrollment.filter
      (enrollmentRowMatches class_id student_id instructor_id
        db.classes)).length ≠ 0) :
    (drop_class class_id student_id instructor_id now none
        db).finalState.droplist =
      db.droplist ++ [⟨class_id, student_id, now, true⟩] := by
  rw [drop_class_finalState _ _ _ _ _ h]
  by_cases hf : is_auto_enroll_enabled
      (dropCommitted class_id student_id instructor_id now db) = true
  · rw [if_pos hf]
    rcases promoteFromWaitlist_frame
        (dropCommitted class_id student_id instructor_id now db)
        class_id with ⟨hd, -, -⟩
    rw [hd]; rfl
  · rw [if_neg hf]; rfl

/-- C9: the droplist is append-only across every operation of the
program: each request leaves the relational droplist with its old rows
as an unchanged prefix (so no existing row is ever mutated or deleted),
and the droplist actually grows exactly when the request is an
administrative drop whose fault-free conditional delete removed an
enrollment row. -/
theorem droplist_append_only (op : Op) (ps : ProgState) :
    (∃ tl, (step op ps).sql.droplist = ps.sql.droplist ++ tl) ∧
    ((step op ps).sql.droplist ≠ ps.sql.droplist ↔
      ∃ class_id student_id instructor_id now,
        op = .adminDrop class_id student_id instructor_id now none ∧
          (ps.sql.enrollment.filter
            (enrollmentRowMatches class_id student_id instructor_id
              ps.sql.classes)).length ≠ 0) := by
  cases op with
  | rosterRead slug user => simp [step]
  | waitlistRead slug user => simp [step]
  | droplistRead slug user => simp [step]
  | adminDrop class_id student_id instructor_id now fault =>
    by_cases h0 : (ps.sql.enrollment.filter
        (enrollmentRowMatches class_id student_id instructor_id
          ps.sql.classes)).length = 0
    · have hstep : (step (Op.adminDrop class_id student_id instructor_id
          now fault) ps).sql = ps.sql := by
        simp [step, drop_class_no_match _ _ _ _ _ _ h0]
      refine ⟨⟨[], by rw [hstep, List.append_nil]⟩, ?_⟩
      rw [hstep]
      refine ⟨fun hne => absurd rfl hne, ?_⟩
      rintro ⟨c', s', i', n', heq, hfil⟩
      injection heq with e1 e2 e3 e4 e5
      subst e1; subst e2; subst e3
      exact absurd h0 hfil
    · cases fault with
      | some e =>
        have hstep : (step (Op.adminDrop class_id student_id instructor_id
            now (some e)) ps).sql = ps.sql := by
          simp [step, drop_class_fault _ _ _ _ _ _ h0]
          by_cases hi : isIntegrityError e = true <;> simp [hi]
        refine ⟨⟨[], by rw [hstep, List.append_nil]⟩, ?_⟩
        rw [hstep]
        refine ⟨fun hne => absurd rfl hne, ?_⟩
        rintro ⟨c', s', i', n', heq, hfil⟩
        injection heq with e1 e2 e3 e4 e5
        exact Option.noConfusion e5
      | none =>
        have hstep : (step (Op.adminDrop class_id student_id instructor_id
            now none) ps).sql.droplist =
            ps.sql.droplist ++
              [⟨class_id, student_id, now, true⟩] := by
          simp only [step]
          exact drop_class_finalState_droplist _ _ _ _ _ h0
        refine ⟨⟨[⟨class_id, student_id, now, true⟩], hstep⟩, ?_⟩
        rw [hstep]
        constructor
        · intro _
          exact ⟨class_id, student_id, instructor_id, now, rfl, h0⟩
        · intro _ heq
          have := congrArg List.length heq
          simp at this

/-! ### Claims about the read endpoints -/

/-- C7: a path parameter that does not contain exactly one underscore —
equivalently, by `splitUnderscore_length`, one that does not split into
exactly two parts — makes each of the three read endpoints return 400
BadRequest with an empty query trace: no datastore query is performed. -/
theorem malformed_slug_bad_request (slug : List Char) (db : DynamoState)
    (db_redis : RedisState) (user : Personnel)
    (h : slug.count '_' ≠ 1) :
    get_current_enrollment slug db user = (.badRequest, []) ∧
    get_waitlist slug db db_redis user = (.badRequest, []) ∧
    get_droplist slug db user = (.badRequest, []) := by
  have hlen : (splitUnderscore slug).length ≠ 2 := by
    rw [splitUnderscore_length]
    omega
  cases hs : splitUnderscore slug with
  | nil =>
    exact ⟨by simp [get_current_enrollment, hs],
      by simp [get_waitlist, hs], by simp [get_droplist, hs]⟩
  | cons a tail =>
    cases tail with
    | nil =>
      exact ⟨by simp [get_current_enrollment, hs],
        by simp [get_waitlist, hs], by simp [get_droplist, hs]⟩
    | cons b tail2 =>
      cases tail2 with
      | nil => rw [hs] at hlen; simp at hlen
      | cons cc rest =>
        exact ⟨by simp [get_current_enrollment, hs],
          by simp [get_waitlist, hs], by simp [get_droplist, hs]⟩

/-- The shared class query returns nothing exactly when no class row has
the requested composite key and the caller as instructor. -/
theorem query_class_information_eq_nil (db : DynamoState)
    (term cls : List Char) (cwid : Int) :
    query_class_information db term cls cwid = [] ↔
      ¬ ∃ c ∈ db.classes, c.term = term ∧ c.cls = cls ∧
        c.instructor_id = cwid := by
  rw [query_class_information, List.filter_eq_nil_iff]
  constructor
  · rintro h1 ⟨c, hc, h2, h3, h4⟩
    exact h1 c hc (by simp [h2, h3, h4])
  · intro h1 c hc hp
    have hq : (c.term = term ∧ c.cls = cls) ∧ c.instructor_id = cwid := by
      simpa using hp
    exact h1 ⟨c, hc, hq.1.1, hq.1.2, hq.2⟩

/-- C8: for every well-formed `term_class` key — one underscore, so the
slug splits into the two components — each read endpoint answers 404
NotFound whenever no class row carries that key with the caller as its
instructor, and conversely each endpoint returns a 200 entry list only
when such an owned class row exists. -/
theorem owned_class_reads (slug : List Char) (db : DynamoState)
    (db_redis : RedisState) (user : Personnel)
    (h : slug.count '_' = 1) :
    ∃ term _class, splitUnderscore slug = [term, _class] ∧
      ((¬ ∃ c ∈ db.classes, c.term = term ∧ c.cls = _class ∧
          c.instructor_id = user.cwid) →
        (get_current_enrollment slug db user).1 = .notFound ∧
        (get_waitlist slug db db_redis user).1 = .notFound ∧
        (get_droplist slug db user).1 = .notFound) ∧
      (∀ data, (get_current_enrollment slug db user).1 = .ok data →
        ∃ c ∈ db.classes, c.term = term ∧ c.cls = _class ∧
          c.instructor_id = user.cwid) ∧
      (∀ data, (get_waitlist slug db db_redis user).1 = .ok data →
        ∃ c ∈ db.classes, c.term = term ∧ c.cls = _class ∧
          c.instructor_id = user.cwid) ∧
      (∀ data, (get_droplist slug db user).1 = .ok data →
        ∃ c ∈ db.classes, c.term = term ∧ c.cls = _class ∧
          c.instructor_id = user.cwid) := by
  have hlen : (splitUnderscore slug).length = 2 := by
    rw [splitUnderscore_length, h]
  obtain ⟨term, _class, hs⟩ := List.length_eq_two.mp hlen
  refine ⟨term, _class, hs, ?_, ?_, ?_, ?_⟩
  · intro hno
    have hq : query_class_information db term _class user.cwid = [] :=
      (query_class_information_eq_nil db term _class user.cwid).mpr hno
    exact ⟨by simp [get_current_enrollment, hs, hq],
      by simp [get_waitlist, hs, hq], by simp [get_droplist, hs, hq]⟩
  · intro data hok
    by_contra hno
    have hq : query_class_information db term _class user.cwid = [] :=
      (query_class_information_eq_nil db term _class user.cwid).mpr hno
    simp [get_current_enrollment, hs, hq] at hok
  · intro data hok
    by_contra hno
    have hq : query_class_information db term _class user.cwid = [] :=
      (query_class_information_eq_nil db term _class user.cwid).mpr hno
    simp [get_waitlist, hs, hq] at hok
  · intro data hok
    by_contra hno
    have hq : query_class_information db term _class user.cwid = [] :=
      (query_class_information_eq_nil db term _class user.cwid).mpr hno
    simp [get_droplist, hs, hq] at hok

/-- C10: a path parameter with exactly one underscore but an empty term
component and/or an empty class component is accepted as well-formed:
none of the three read endpoints answers 400, each issues the ownership
lookup for the (possibly empty) components, and each answers 404 when no
class row matches those components for the caller. -/
theorem empty_component_slug_accepted (slug : List Char) (db : DynamoState)
    (db_redis : RedisState) (user : Personnel) (term _class : List Char)
    (hs : splitUnderscore slug = [term, _class])
    (_hempty : term = [] ∨ _class = []) :
    (get_current_enrollment slug db user).1 ≠ .badRequest ∧
    (get_waitlist slug db db_redis user).1 ≠ .badRequest ∧
    (get_droplist slug db user).1 ≠ .badRequest ∧
    QueryEvent.classInfo term _class user.cwid ∈
      (get_current_enrollment slug db user).2 ∧
    QueryEvent.classInfo term _class user.cwid ∈
      (get_waitlist slug db db_redis user).2 ∧
    QueryEvent.classInfo term _class user.cwid ∈
      (get_droplist slug db user).2 ∧
    (query_class_information db term _class user.cwid = [] →
      (get_current_enrollment slug db user).1 = .notFound ∧
      (get_waitlist slug db db_redis user).1 = .notFound ∧
      (get_droplist slug db user).1 = .notFound) := by
  by_cases hq : query_class_information db term _class user.cwid = []
  · refine ⟨?_, ?_, ?_, ?_, ?_, ?_, fun _ => ⟨?_, ?_, ?_⟩⟩ <;>
      simp [get_current_enrollment, get_waitlist, get_droplist, hs, hq]
  · refine ⟨?_, ?_, ?_, ?_, ?_, ?_, fun hq2 => absurd hq2 hq⟩ <;>
      simp [get_current_enrollment, get_waitlist, get_droplist, hs, hq]

/-! ### Concrete witnesses -/

/-- C1 witness: class 1 owned by instructor 1 with student 10 enrolled;
the drop at timestamp 5 succeeds. -/
theorem admin_drop_success_effects_witness :
    ((1 : Int), (10 : Int)) ∈
      (⟨[⟨1, 1⟩], [(1, 10)], [], false, []⟩ : SqlState).enrollment ∧
    (∃ c ∈ (⟨[⟨1, 1⟩], [(1, 10)], [], false, []⟩ : SqlState).classes,
      c.id = 1 ∧ c.instructor_id = 1) ∧
    (drop_class 1 10 1 5 none
        ⟨[⟨1, 1⟩], [(1, 10)], [], false, []⟩).result =
      .ok "Item deleted successfully" :=
  ⟨by decide, by decide,
    (admin_drop_success_effects 1 10 1 5
      ⟨[⟨1, 1⟩], [(1, 10)], [], false, []⟩ (by decide) (by decide)).1⟩

/-- C2 witness: the droplist insert raises an integrity violation, the
handler reports 409, and the committed state is untouched. -/
theorem admin_drop_conflict_rolls_back_witness :
    (drop_class 1 10 1 0
        (some (.integrityError "FOREIGN KEY constraint failed"))
        ⟨[⟨1, 1⟩], [(1, 10)], [], false, []⟩).result =
      .conflict "IntegrityError" "FOREIGN KEY constraint failed" ∧
    ((drop_class 1 10 1 0
        (some (.integrityError "FOREIGN KEY constraint failed"))
        ⟨[⟨1, 1⟩], [(1, 10)], [], false, []⟩).txnState =
      ⟨[⟨1, 1⟩], [(1, 10)], [], false, []⟩ ∧
    (drop_class 1 10 1 0
        (some (.integrityError "FOREIGN KEY constraint failed"))
        ⟨[⟨1, 1⟩], [(1, 10)], [], false, []⟩).finalState =
      ⟨[⟨1, 1⟩], [(1, 10)], [], false, []⟩ ∧
    (drop_class 1 10 1 0
        (some (.integrityError "FOREIGN KEY constraint failed"))
        ⟨[⟨1, 1⟩], [(1, 10)], [], false, []⟩).events = []) :=
  ⟨by decide,
    admin_drop_conflict_rolls_back 1 10 1 0
      (some (.integrityError "FOREIGN KEY constraint failed"))
      ⟨[⟨1, 1⟩], [(1, 10)], [], false, []⟩
      "IntegrityError" "FOREIGN KEY constraint failed" (by decide)⟩

/-- C3 witness (for the amended translation theorem): an
`IntegrityError` raised by the insert is reported as the 409 payload. -/
theorem admin_drop_exception_translation_witness :
    ((⟨[⟨1, 1⟩], [(1, 10)], [], false, []⟩ : SqlState).enrollment.filter
      (enrollmentRowMatches 1 10 1
        (⟨[⟨1, 1⟩], [(1, 10)], [], false, []⟩ : SqlState).classes)).length ≠
      0 ∧
    (drop_class 1 10 1 0 (some (.integrityError "UNIQUE constraint failed"))
        ⟨[⟨1, 1⟩], [(1, 10)], [], false, []⟩).result =
      (if isIntegrityError (.integrityError "UNIQUE constraint failed") then
        .conflict (excTypeName (.integrityError "UNIQUE constraint failed"))
          (excMsg (.integrityError "UNIQUE constraint failed"))
      else .uncaught (.integrityError "UNIQUE constraint failed")) :=
  ⟨by decide,
    admin_drop_exception_translation 1 10 1 0
      (.integrityError "UNIQUE constraint failed")
      ⟨[⟨1, 1⟩], [(1, 10)], [], false, []⟩ (by decide)⟩

/-- C4 witness: on an empty database the conditional delete matches
nothing and the drop reports 404 over the unchanged state. -/
theorem admin_drop_zero_rows_not_found_witness :
    ((⟨[], [], [], false, []⟩ : SqlState).enrollment.filter
      (enrollmentRowMatches 1 2 3
        (⟨[], [], [], false, []⟩ : SqlState).classes)).length = 0 ∧
    ((drop_class 1 2 3 0 none (⟨[], [], [], false, []⟩ : SqlState)).result =
      .notFound "Record Not Found" ∧
    (drop_class 1 2 3 0 none
        (⟨[], [], [], false, []⟩ : SqlState)).txnState =
      ⟨[], [], [], false, []⟩ ∧
    (drop_class 1 2 3 0 none
        (⟨[], [], [], false, []⟩ : SqlState)).finalState =
      ⟨[], [], [], false, []⟩ ∧
    (drop_class 1 2 3 0 none
        (⟨[], [], [], false, []⟩ : SqlState)).events = []) :=
  ⟨by decide,
    admin_drop_zero_rows_not_found 1 2 3 0 none
      ⟨[], [], [], false, []⟩ (by decide)⟩

/-- C5 witness: a successful drop with the flag enabled and student 20
waiting; the trigger is invoked for the singleton class list. -/
theorem admin_drop_post_commit_trigger_witness :
    (drop_class 1 10 1 0 none
        ⟨[⟨1, 1⟩], [(1, 10)], [], true, [(1, [20])]⟩).result =
      .ok "Item deleted successfully" ∧
    (TrigEvent.autoEnrollTrigger [1] ∈
        (drop_class 1 10 1 0 none
          ⟨[⟨1, 1⟩], [(1, 10)], [], true, [(1, [20])]⟩).events ↔
      is_auto_enroll_enabled
        (drop_class 1 10 1 0 none
          ⟨[⟨1, 1⟩], [(1, 10)], [], true, [(1, [20])]⟩).txnState = true) :=
  ⟨by decide,
    (admin_drop_post_commit_trigger 1 10 1 0 none
      ⟨[⟨1, 1⟩], [(1, 10)], [], true, [(1, [20])]⟩
      "Item deleted successfully" (by decide)).2.1⟩

/-- C6 witness (for the amended idempotence theorem): student 20, not
the dropped student 10, heads the waitlist, so the retried drop hits the
404 branch. -/
theorem admin_drop_idempotent_terminal_witness :
    ((⟨[⟨1, 1⟩], [(1, 10)], [], true, [(1, [20])]⟩ :
        SqlState).enrollment.filter
      (enrollmentRowMatches 1 10 1
        (⟨[⟨1, 1⟩], [(1, 10)], [], true, [(1, [20])]⟩ :
          SqlState).classes)).length ≠ 0 ∧
    ((⟨[⟨1, 1⟩], [(1, 10)], [], true, [(1, [20])]⟩ :
        SqlState).auto_enroll_flag = false ∨
      (lookupWaitlist
        (⟨[⟨1, 1⟩], [(1, 10)], [], true, [(1, [20])]⟩ :
          SqlState).waitlists 1).head? ≠ some 10) ∧
    (drop_class 1 10 1 7 none
        (drop_class 1 10 1 0 none
          ⟨[⟨1, 1⟩], [(1, 10)], [], true, [(1, [20])]⟩).finalState).result =
      .notFound "Record Not Found" :=
  ⟨by decide, by decide,
    (admin_drop_idempotent_terminal 1 10 1 0 7 none
      ⟨[⟨1, 1⟩], [(1, 10)], [], true, [(1, [20])]⟩
      (by decide) (by decide)).1⟩

/-- C7 witness: the slug with no underscore is rejected by all three
read endpoints without a query. -/
theorem malformed_slug_bad_request_witness :
    (['a'].count '_' ≠ 1) ∧
    (get_current_enrollment ['a'] ⟨[], [], []⟩ ⟨5⟩ = (.badRequest, []) ∧
    get_waitlist ['a'] ⟨[], [], []⟩ ⟨[]⟩ ⟨5⟩ = (.badRequest, []) ∧
    get_droplist ['a'] ⟨[], [], []⟩ ⟨5⟩ = (.badRequest, [])) :=
  ⟨by decide,
    malformed_slug_bad_request ['a'] ⟨[], [], []⟩ ⟨[]⟩ ⟨5⟩ (by decide)⟩

/-- C8 witness: the well-formed slug `a_b` against an empty class table
for caller 5. -/
theorem owned_class_reads_witness :
    (['a', '_', 'b'].count '_' = 1) ∧
    (∃ term _class, splitUnderscore ['a', '_', 'b'] = [term, _class] ∧
      ((¬ ∃ c ∈ (⟨[], [], []⟩ : DynamoState).classes, c.term = term ∧
          c.cls = _class ∧ c.instructor_id = (⟨5⟩ : Personnel).cwid) →
        (get_current_enrollment ['a', '_', 'b'] ⟨[], [], []⟩ ⟨5⟩).1 =
          .notFound ∧
        (get_waitlist ['a', '_', 'b'] ⟨[], [], []⟩ ⟨[]⟩ ⟨5⟩).1 =
          .notFound ∧
        (get_droplist ['a', '_', 'b'] ⟨[], [], []⟩ ⟨5⟩).1 = .notFound) ∧
      (∀ data,
        (get_current_enrollment ['a', '_', 'b'] ⟨[], [], []⟩ ⟨5⟩).1 =
          .ok data →
        ∃ c ∈ (⟨[], [], []⟩ : DynamoState).classes, c.term = term ∧
          c.cls = _class ∧ c.instructor_id = (⟨5⟩ : Personnel).cwid) ∧
      (∀ data,
        (get_waitlist ['a', '_', 'b'] ⟨[], [], []⟩ ⟨[]⟩ ⟨5⟩).1 =
          .ok data →
        ∃ c ∈ (⟨[], [], []⟩ : DynamoState).classes, c.term = term ∧
          c.cls = _class ∧ c.instructor_id = (⟨5⟩ : Personnel).cwid) ∧
      (∀ data,
        (get_droplist ['a', '_', 'b'] ⟨[], [], []⟩ ⟨5⟩).1 = .ok data →
        ∃ c ∈ (⟨[], [], []⟩ : DynamoState).classes, c.term = term ∧
          c.cls = _class ∧ c.instructor_id = (⟨5⟩ : Personnel).cwid)) :=
  ⟨by decide,
    owned_class_reads ['a', '_', 'b'] ⟨[], [], []⟩ ⟨[]⟩ ⟨5⟩ (by decide)⟩

/-- C10 witness: the slug consisting of a lone underscore — both
components empty — passes validation and reaches the 404 branch on an
empty class table. -/
theorem empty_component_slug_accepted_witness :
    splitUnderscore ['_'] = [[], []] ∧
    (([] : List Char) = [] ∨ ([] : List Char) = []) ∧
    ((get_current_enrollment ['_'] ⟨[], [], []⟩ ⟨5⟩).1 ≠ .badRequest ∧
    (get_waitlist ['_'] ⟨[], [], []⟩ ⟨[]⟩ ⟨5⟩).1 ≠ .badRequest ∧
    (get_droplist ['_'] ⟨[], [], []⟩ ⟨5⟩).1 ≠ .badRequest ∧
    QueryEvent.classInfo [] [] (⟨5⟩ : Personnel).cwid ∈
      (get_current_enrollment ['_'] ⟨[], [], []⟩ ⟨5⟩).2 ∧
    QueryEvent.classInfo [] [] (⟨5⟩ : Personnel).cwid ∈
      (get_waitlist ['_'] ⟨[], [], []⟩ ⟨[]⟩ ⟨5⟩).2 ∧
    QueryEvent.classInfo [] [] (⟨5⟩ : Personnel).cwid ∈
      (get_droplist ['_'] ⟨[], [], []⟩ ⟨5⟩).2 ∧
    (query_class_information ⟨[], [], []⟩ [] [] (⟨5⟩ : Personnel).cwid =
        [] →
      (get_current_enrollment ['_'] ⟨[], [], []⟩ ⟨5⟩).1 = .notFound ∧
      (get_waitlist ['_'] ⟨[], [], []⟩ ⟨[]⟩ ⟨5⟩).1 = .notFound ∧
      (get_droplist ['_'] ⟨[], [], []⟩ ⟨5⟩).1 = .notFound)) :=
  ⟨by decide, by decide,
    empty_component_slug_accepted ['_'] ⟨[], [], []⟩ ⟨[]⟩ ⟨5⟩ [] []
      (by decide) (by decide)⟩

end InstructorRouter
